import Mathlib

/-!
# WebSight core: shallow embedding and verification

This file embeds the core of the `websight` repository — the persistent
session manager, target resolver, interaction executor and visual/structural
diff engine (`src/tools/session.ts`, `src/tools/compare.ts`,
`src/tools/detect.ts`, `src/mcp-server.ts`) — as executable Lean
definitions, and proves (or refutes) the testable properties stated in the
specification.

Conventions of the embedding:
* JavaScript strings are Lean `String`; `s.includes(t)` is substring search
  on the underlying character lists, `s.toLowerCase()` maps the character
  data through `Char.toLower`.
* JavaScript truthiness on strings (`if (!x)`, `x || y`) is modelled
  explicitly: `undefined`/`null` is `Option.none` and the empty string is
  falsy.
* Asynchronous browser operations are modelled by environments that state,
  per underlying operation, whether it succeeded or threw (and with which
  error message).  A TypeScript `async` function that can reject is a Lean
  function into `Except String _`; `Except.error` is an uncaught rejection
  propagating to the caller.
* `Record<string,string>` objects are association lists with first-match
  lookup; iteration over `new Set([...])` preserves the JS first-insertion
  order, modelled by `dedupKeys`.
-/

namespace WebSight

/-! ## String helpers (JS semantics) -/

/-- Contiguous-sublist test on character lists: `needle` occurs somewhere
inside `hay`. -/
def listWithin (needle : List Char) : List Char → Bool
  | [] => needle.isEmpty
  | c :: rest => needle.isPrefixOf (c :: rest) || listWithin needle rest

/-- JS `hay.includes(needle)`: substring containment. -/
def strIncludes (hay needle : String) : Bool :=
  listWithin needle.data hay.data

/-- JS `s.startsWith(c)` for a single-character prefix. -/
def strStartsWithChar (s : String) (c : Char) : Bool :=
  match s.data with
  | [] => false
  | d :: _ => d == c

/-- JS `s.toLowerCase()` (ASCII case mapping), on the character data. -/
def strToLower (s : String) : String :=
  String.mk (s.data.map Char.toLower)

/-- JS regex character class `[\w-]`: word characters or hyphen. -/
def isWordOrHyphen (c : Char) : Bool :=
  (c.isAlpha || c.isDigit || c == '_') || c == '-'

/-- JS `/^[\w-]+$/.test(s)`: nonempty and all characters word/hyphen. -/
def identLike (s : String) : Bool :=
  !s.data.isEmpty && s.data.all isWordOrHyphen

/-- JS string truthiness for an optional string: `undefined` and `""` are
falsy. -/
def truthyStr : Option String → Option String
  | some s => if s = "" then none else some s
  | none => none

/-- JS `a || b` on a possibly-absent string (falsy = absent or empty). -/
def jsOrStr (a : Option String) (b : String) : String :=
  match truthyStr a with
  | some s => s
  | none => b

/-! ## Data model (`src/tools/types.ts`)

Only the fields read by the embedded core functions are carried; fields the
core never touches (bounds, fold flags, landmarks, overlays, class usage,
viewport) are omitted from the records. -/

/-- `LocatorHint.type` in `types.ts`. -/
inductive LocType where
  | testId
  | id
  | role
  | css
deriving DecidableEq, Repr

/-- `LocatorHint`: a typed, precomputed element query. -/
structure LocatorHint where
  type : LocType
  value : String
deriving DecidableEq, Repr

/-- `Action`: one interactive element found during analysis. -/
structure PageAction where
  name : String
  locator : LocatorHint
deriving DecidableEq, Repr

/-- `Section`: one page section (identifier fields only). -/
structure PageSection where
  name : String
  testId : Option String
deriving DecidableEq, Repr

/-- `Theme`: the scalar theme fields, border radii and CSS custom
properties read by the diff engine. -/
structure Theme where
  bodyBackground : String
  bodyTextColor : String
  bodyFontFamily : String
  bodyFontSize : String
  lineHeight : String
  borderRadii : List String
  cssVariables : List (String × String)
deriving DecidableEq, Repr

/-- `PageSnapshot`: the fields of the persisted snapshot record consumed by
the resolver and the diff engine. -/
structure PageSnapshot where
  url : String
  title : String
  theme : Theme
  sections : List PageSection
  actions : List PageAction
  screenshotPath : Option String
  textSample : String
  timestamp : String
deriving DecidableEq, Repr

/-! ## Target resolver (`findSelector`, `session.ts` lines 316–343) -/

/-- `findSelector(target, snapshot)`: map a caller-supplied reference string
to an element query.  Rule order as in the source: verbatim selector
syntax, cached-snapshot lookup, synthesized `data-testid` query, textual
fallback. -/
def findSelector (target : String) (snapshot : Option PageSnapshot) : String :=
  -- If it looks like a selector already, use it
  if strStartsWithChar target '[' || strStartsWithChar target '#' ||
      strStartsWithChar target '.' || strIncludes target "=" then
    target
  else
    -- Try to find by name or locator in last snapshot
    let fromSnap : Option String :=
      match snapshot with
      | none => none
      | some snap =>
        match snap.actions.find? (fun a =>
            strIncludes (strToLower a.name) (strToLower target) ||
            (a.locator.type == LocType.testId &&
              strIncludes (strToLower a.locator.value) (strToLower target))) with
        | some m => some m.locator.value
        | none => none
    match fromSnap with
    | some sel => sel
    | none =>
      -- Try data-testid directly (common pattern)
      if identLike target then
        "[data-testid=\"" ++ target ++ "\"]"
      else
        -- Fallback: treat as text selector
        "text=" ++ target

/-! ## Interaction executor (`session.ts` lines 305–741)

Every interaction function first awaits `getPage(url)` *outside* its
`try` block, then resolves the target and performs the bounded operation
inside `try`/`catch`.  The environment `OpEnv` records, per underlying
browser operation, whether it rejected (and with which error message) and
what value it produced.  A rejection of an operation outside any `try`
surfaces as `Except.error` — an uncaught rejection propagating to the
caller of the interaction function. -/

/-- `InteractionResult` plus the optional action-specific payload fields of
the extended result types (`value`, `visible`, `enabled`). -/
structure InteractionResult where
  success : Bool
  action : String
  target : String
  message : String
  durationMs : Nat
  value : Option String := none
  visible : Option Bool := none
  enabled : Option Bool := none
deriving DecidableEq, Repr

/-- Outcomes of the underlying asynchronous browser operations for one
interaction call.  `none` in a fault field means the operation fulfilled;
`some e` means it rejected with error message `e` (JS
`error instanceof Error ? error.message : 'Unknown error'`). -/
structure OpEnv where
  /-- Rejection of `getPage(url)` (browser launch or `page.goto` timeout);
  thrown outside every `try` block. -/
  getPageFault : Option String
  /-- Rejection of the primary bounded operation inside the `try`. -/
  opFault : Option String
  /-- Value fulfilled by `page.inputValue`. -/
  opValue : String
  /-- Rejection of the fallback `locator.textContent` in `getValue`. -/
  textContentFault : Option String
  /-- Value fulfilled by `locator.textContent` (`none` = JS `null`). -/
  textContentValue : Option String
  /-- Value fulfilled by `locator.isVisible`. -/
  visibleValue : Bool
  /-- Whether `locator.isEnabled` rejected (its rejection is caught and
  replaced by `true`). -/
  enabledFault : Bool
  /-- Value fulfilled by `locator.isEnabled`. -/
  enabledValue : Bool
  /-- Value fulfilled by `locator.getAttribute` (`none` = JS `null`). -/
  attrValue : Option String
  /-- Elapsed milliseconds `Date.now() - start`. -/
  elapsed : Nat
deriving Repr

/-- `click(target, url)`: resolve, click, best-effort settle wait (settle
failures swallowed by `.catch(() => {})`). -/
def click (target : String) (snapshot : Option PageSnapshot) (env : OpEnv) :
    Except String InteractionResult :=
  match env.getPageFault with
  | some e => .error e
  | none =>
    let selector := findSelector target snapshot
    match env.opFault with
    | none =>
      .ok { success := true, action := "click", target := selector,
            message := "Clicked \"" ++ target ++ "\"", durationMs := env.elapsed }
    | some e =>
      .ok { success := false, action := "click", target := selector,
            message := "Failed to click \"" ++ target ++ "\": " ++ e,
            durationMs := env.elapsed }

/-- `type(target, text, url)`: resolve, clear-and-fill with `page.fill`. -/
def type (target text : String) (snapshot : Option PageSnapshot) (env : OpEnv) :
    Except String InteractionResult :=
  match env.getPageFault with
  | some e => .error e
  | none =>
    let selector := findSelector target snapshot
    match env.opFault with
    | none =>
      .ok { success := true, action := "type", target := selector,
            message := "Typed \"" ++ text ++ "\" into \"" ++ target ++ "\"",
            durationMs := env.elapsed }
    | some e =>
      .ok { success := false, action := "type", target := selector,
            message := "Failed to type into \"" ++ target ++ "\": " ++ e,
            durationMs := env.elapsed }

/-- `select(target, value, url)`: resolve, `page.selectOption` by value. -/
def select (target value : String) (snapshot : Option PageSnapshot) (env : OpEnv) :
    Except String InteractionResult :=
  match env.getPageFault with
  | some e => .error e
  | none =>
    let selector := findSelector target snapshot
    match env.opFault with
    | none =>
      .ok { success := true, action := "select", target := selector,
            message := "Selected \"" ++ value ++ "\" in \"" ++ target ++ "\"",
            durationMs := env.elapsed }
    | some e =>
      .ok { success := false, action := "select", target := selector,
            message := "Failed to select in \"" ++ target ++ "\": " ++ e,
            durationMs := env.elapsed }

/-- `hover(target, url)`: resolve, `page.hover`. -/
def hover (target : String) (snapshot : Option PageSnapshot) (env : OpEnv) :
    Except String InteractionResult :=
  match env.getPageFault with
  | some e => .error e
  | none =>
    let selector := findSelector target snapshot
    match env.opFault with
    | none =>
      .ok { success := true, action := "hover", target := selector,
            message := "Hovered over \"" ++ target ++ "\"", durationMs := env.elapsed }
    | some e =>
      .ok { success := false, action := "hover", target := selector,
            message := "Failed to hover \"" ++ target ++ "\": " ++ e,
            durationMs := env.elapsed }

/-- `press(key, url)`: page-level `keyboard.press`, no resolution. -/
def press (key : String) (env : OpEnv) : Except String InteractionResult :=
  match env.getPageFault with
  | some e => .error e
  | none =>
    match env.opFault with
    | none =>
      .ok { success := true, action := "press", target := key,
            message := "Pressed \"" ++ key ++ "\"", durationMs := env.elapsed }
    | some e =>
      .ok { success := false, action := "press", target := key,
            message := "Failed to press \"" ++ key ++ "\": " ++ e,
            durationMs := env.elapsed }

/-- `waitFor(target, url, timeoutMs = 5000)`: resolve, poll with
`page.waitForSelector` up to the caller-supplied timeout. -/
def waitFor (target : String) (timeoutMs : Nat) (snapshot : Option PageSnapshot)
    (env : OpEnv) : Except String InteractionResult :=
  match env.getPageFault with
  | some e => .error e
  | none =>
    let selector := findSelector target snapshot
    match env.opFault with
    | none =>
      .ok { success := true, action := "waitFor", target := selector,
            message := "Element \"" ++ target ++ "\" appeared", durationMs := env.elapsed }
    | some _ =>
      .ok { success := false, action := "waitFor", target := selector,
            message := "Element \"" ++ target ++ "\" did not appear within " ++
              toString timeoutMs ++ "ms",
            durationMs := env.elapsed }

/-- `scroll(direction, url)`: up/down via `PageUp`/`PageDown` key
simulation, top/bottom via direct scroll-position assignment; a direction
matching no `switch` case performs no operation and still reports
success. -/
def scroll (direction : String) (env : OpEnv) : Except String InteractionResult :=
  match env.getPageFault with
  | some e => .error e
  | none =>
    let known := direction == "up" || direction == "down" ||
                 direction == "top" || direction == "bottom"
    match (if known then env.opFault else none) with
    | none =>
      .ok { success := true, action := "scroll", target := direction,
            message := "Scrolled " ++ direction, durationMs := env.elapsed }
    | some e =>
      .ok { success := false, action := "scroll", target := direction,
            message := "Failed to scroll " ++ direction ++ ": " ++ e,
            durationMs := env.elapsed }

/-- `getValue(target, url)`: try `page.inputValue`; on rejection fall back
to `locator.textContent`; only a rejection of the fallback is a failure. -/
def getValue (target : String) (snapshot : Option PageSnapshot) (env : OpEnv) :
    Except String InteractionResult :=
  match env.getPageFault with
  | some e => .error e
  | none =>
    let selector := findSelector target snapshot
    match env.opFault with
    | none =>
      .ok { success := true, action := "getValue", target := selector,
            message := "Got value \"" ++ env.opValue ++ "\" from \"" ++ target ++ "\"",
            value := some env.opValue, durationMs := env.elapsed }
    | some _ =>
      match env.textContentFault with
      | none =>
        .ok { success := true, action := "getValue", target := selector,
              message := "Got text \"" ++
                (match env.textContentValue with | some t => t | none => "null") ++
                "\" from \"" ++ target ++ "\"",
              value := some (env.textContentValue.getD ""), durationMs := env.elapsed }
      | some e =>
        .ok { success := false, action := "getValue", target := selector,
              message := "Failed to get value from \"" ++ target ++ "\": " ++ e,
              durationMs := env.elapsed }

/-- `isVisible(target, url)`: check visibility, then (only if visible)
check enabled state; an `isEnabled` rejection is caught and treated as
enabled. -/
def isVisible (target : String) (snapshot : Option PageSnapshot) (env : OpEnv) :
    Except String InteractionResult :=
  match env.getPageFault with
  | some e => .error e
  | none =>
    let selector := findSelector target snapshot
    match env.opFault with
    | none =>
      let visible := env.visibleValue
      let enabled := if visible then
          (if env.enabledFault then true else env.enabledValue)
        else true
      .ok { success := true, action := "isVisible", target := selector,
            message := if visible then
                "\"" ++ target ++ "\" is visible" ++ (if enabled then "" else " (disabled)")
              else "\"" ++ target ++ "\" is not visible",
            visible := some visible, enabled := some enabled, durationMs := env.elapsed }
    | some e =>
      .ok { success := false, action := "isVisible", target := selector,
            message := "Failed to check visibility of \"" ++ target ++ "\": " ++ e,
            visible := some false, enabled := some false, durationMs := env.elapsed }

/-- `screenshot(outputPath, url, options)`: low-level CDP capture when
`options.fast` and the session is locally launched, standard capture
(animations disabled) otherwise; both capture strategies are bounded
operations inside the `try`. -/
def screenshot (outputPath : String) (fast isRemote : Bool) (env : OpEnv) :
    Except String InteractionResult :=
  match env.getPageFault with
  | some e => .error e
  | none =>
    -- fast path is selected only when `fast && !isRemote`; either path's
    -- rejection is modelled by `opFault`
    let _usesFastPath := fast && !isRemote
    match env.opFault with
    | none =>
      .ok { success := true, action := "screenshot", target := outputPath,
            message := "Screenshot saved to \"" ++ outputPath ++ "\"",
            durationMs := env.elapsed }
    | some e =>
      .ok { success := false, action := "screenshot", target := outputPath,
            message := "Failed to take screenshot: " ++ e, durationMs := env.elapsed }

/-- `getAttribute(target, attribute, url)`: read a named attribute; a
`null` attribute value is a successful "no such attribute" result. -/
def getAttribute (target attrName : String) (snapshot : Option PageSnapshot)
    (env : OpEnv) : Except String InteractionResult :=
  match env.getPageFault with
  | some e => .error e
  | none =>
    let selector := findSelector target snapshot
    match env.opFault with
    | none =>
      match env.attrValue with
      | some v =>
        .ok { success := true, action := "getAttribute", target := selector,
              message := "Got " ++ attrName ++ "=\"" ++ v ++ "\" from \"" ++ target ++ "\"",
              value := some v, durationMs := env.elapsed }
      | none =>
        .ok { success := true, action := "getAttribute", target := selector,
              message := "\"" ++ target ++ "\" has no \"" ++ attrName ++ "\" attribute",
              value := none, durationMs := env.elapsed }
    | some e =>
      .ok { success := false, action := "getAttribute", target := selector,
            message := "Failed to get attribute from \"" ++ target ++ "\": " ++ e,
            durationMs := env.elapsed }

/-! ## Diff engine (`compare.ts`)

Pixel data of a decoded PNG is a list of RGBA pixels.  The external
`pixelmatch` library is not part of the repository; the image comparison is
therefore parametric in a differing-pixel counter `pm`, and a concrete
model `pixelmatchModel` (counting pixels whose per-channel difference
exceeds a sensitivity threshold, per the spec's description of the
anti-aliasing-aware comparison) is supplied for witnesses.  File reading
and writing are abstracted away: `compareImages` takes the two decoded
images directly (the source returns `null` when either file is missing or
unreadable), and `compareSnapshots` takes the resolved pair of decoded
images in place of the snapshot paths. -/

/-- One reported change of a theme property or CSS variable. -/
structure ThemeDiff where
  property : String
  before : String
  after : String
deriving DecidableEq, Repr

/-- One RGBA pixel of a decoded PNG. -/
structure Pixel where
  r : Nat
  g : Nat
  b : Nat
  a : Nat
deriving DecidableEq, Repr

/-- A decoded PNG: dimensions plus flat pixel data. -/
structure Image where
  width : Nat
  height : Nat
  data : List Pixel
deriving DecidableEq, Repr

/-- `ImageDiffResult` of `compare.ts`; `diffPercent` is kept as an exact
rational (JS numbers at the involved magnitudes behave like exact
arithmetic on these operations). -/
structure ImageDiffResult where
  diffPercent : ℚ
  diffPixels : Int
  totalPixels : Nat
  diffImagePath : Option String
  hasSignificantChange : Bool
deriving DecidableEq, Repr

/-- JS `Math.round` for the non-negative values arising here: round half
up. -/
def jsRound (q : ℚ) : Int :=
  ⌊q + 1/2⌋

/-- Rounding to two decimals: `Math.round(x * 100) / 100`. -/
def round2 (q : ℚ) : ℚ :=
  (jsRound (q * 100) : ℚ) / 100

/-- Absolute difference of one colour channel. -/
def channelDelta (x y : Nat) : Nat :=
  ((x : Int) - (y : Int)).natAbs

/-- Largest per-channel difference of two pixels. -/
def pixelDelta (p q : Pixel) : Nat :=
  max (max (channelDelta p.r q.r) (channelDelta p.g q.g))
      (max (channelDelta p.b q.b) (channelDelta p.a q.a))

/-- Modelled from the spec: the external `pixelmatch` dependency is not in
the repository.  Per the spec, it performs a per-pixel comparison with a
fixed per-channel sensitivity threshold and counts differing pixels over
the aligned data; identical pixels never count as differing. -/
def pixelmatchModel (d1 d2 : List Pixel) : Nat :=
  (d1.zip d2).countP (fun pq => decide (pixelDelta pq.1 pq.2 > 25))

/-- `compareImages(beforeImagePath, afterImagePath, outputDir)`, lines
42–93, after successful decoding of both files, parametric in the
differing-pixel counter `pm` standing for the external `pixelmatch`. -/
def compareImages (pm : List Pixel → List Pixel → Nat) (img1 img2 : Image)
    (outputDir : String) : ImageDiffResult :=
  -- Images must be same size for comparison
  if img1.width ≠ img2.width ∨ img1.height ≠ img2.height then
    { diffPercent := 100
      diffPixels := -1
      totalPixels := img1.width * img1.height
      diffImagePath := none
      hasSignificantChange := true }
  else
    let numDiffPixels := pm img1.data img2.data
    let totalPixels := img1.width * img1.height
    let diffPercent : ℚ := ((numDiffPixels : ℚ) / (totalPixels : ℚ)) * 100
    { diffPercent := round2 diffPercent
      diffPixels := numDiffPixels
      totalPixels := totalPixels
      diffImagePath := some (outputDir ++ "/diff.png")
      hasSignificantChange := decide (diffPercent > 1/2) }

/-- Worker for `dedupKeys`: drop elements already seen. -/
def dedupKeysAux (seen : List String) : List String → List String
  | [] => []
  | k :: rest =>
    if seen.contains k then dedupKeysAux seen rest
    else k :: dedupKeysAux (k :: seen) rest

/-- First-insertion-order deduplication, as produced by iterating a JS
`Set` built from a list. -/
def dedupKeys (l : List String) : List String :=
  dedupKeysAux [] l

/-- JS object property lookup on the association-list model of a
`Record<string,string>`. -/
def recLookup (m : List (String × String)) (k : String) : Option String :=
  (m.find? (fun p => p.1 == k)).map (fun p => p.2)

/-- The value the CSS-variable diff compares for one side:
`vars[name] || sentinel` — the sentinel replaces the value when the key is
absent *or* its value is the empty string (JS falsiness). -/
def cssVarSide (vars : List (String × String)) (k sentinel : String) : String :=
  jsOrStr (recLookup vars k) sentinel

/-- The union of CSS-variable names of both snapshots, in JS `Set`
insertion order. -/
def cssVarUnion (beforeVars afterVars : List (String × String)) : List String :=
  dedupKeys (beforeVars.map Prod.fst ++ afterVars.map Prod.fst)

/-- The CSS-variable change list of `compareSnapshots` (lines 147–162). -/
def cssVariableChangesOf (beforeVars afterVars : List (String × String)) :
    List ThemeDiff :=
  (cssVarUnion beforeVars afterVars).filterMap (fun varName =>
    if cssVarSide beforeVars varName "(not set)" ≠ cssVarSide afterVars varName "(removed)" then
      some { property := varName
             before := cssVarSide beforeVars varName "(not set)"
             after := cssVarSide afterVars varName "(removed)" }
    else
      none)

/-- The fixed list of scalar theme properties compared by
`compareSnapshots`, paired with their values in a given theme. -/
def themePropList (t : Theme) : List (String × String) :=
  [("bodyBackground", t.bodyBackground),
   ("bodyTextColor", t.bodyTextColor),
   ("bodyFontFamily", t.bodyFontFamily),
   ("bodyFontSize", t.bodyFontSize),
   ("lineHeight", t.lineHeight)]

/-- The scalar theme change list of `compareSnapshots` (lines 129–145). -/
def themeChangesOf (b a : Theme) : List ThemeDiff :=
  ((themePropList b).zip (themePropList a)).filterMap (fun pq =>
    if pq.1.2 ≠ pq.2.2 then
      some { property := pq.1.1, before := pq.1.2, after := pq.2.2 }
    else
      none)

/-- `[...new Set(after)].filter(x => !new Set(before).has(x))`: the
added-elements set difference used for radii, sections and actions. -/
def setAdded (beforeL afterL : List String) : List String :=
  (dedupKeys afterL).filter (fun x => !beforeL.contains x)

/-- The section identifier preferred by the diff: `s.testId || s.name`
(JS falsiness: an empty `testId` falls back to the name). -/
def sectionKey (s : PageSection) : String :=
  jsOrStr s.testId s.name

/-- The layout-change list built from the border-radius set differences
(lines 165–173). -/
def layoutChangesOf (b a : Theme) : List String :=
  let addedRadii := setAdded b.borderRadii a.borderRadii
  let removedRadii := setAdded a.borderRadii b.borderRadii
  if addedRadii.length ≠ 0 ∨ removedRadii.length ≠ 0 then
    [("Border radii: " ++
        (if removedRadii.length ≠ 0 then "removed " ++ String.intercalate ", " removedRadii else "") ++
        " " ++
        (if addedRadii.length ≠ 0 then "added " ++ String.intercalate ", " addedRadii else "")).trim]
  else
    []

/-- `CompareResult` of `compare.ts`. -/
structure CompareResult where
  url : String
  summary : String
  themeChanges : List ThemeDiff
  cssVariableChanges : List ThemeDiff
  sectionsAdded : List String
  sectionsRemoved : List String
  actionsAdded : List String
  actionsRemoved : List String
  layoutChanges : List String
  imageDiff : Option ImageDiffResult
deriving DecidableEq, Repr

/-- The human-readable summary fragments (lines 189–217), in the fixed
precedence order of the source. -/
def summaryOf (r : CompareResult) : String :=
  let changes : List String :=
    (match r.imageDiff with
     | some d => if d.hasSignificantChange then [toString d.diffPercent ++ "% visual difference"] else []
     | none => []) ++
    (if r.themeChanges.length ≠ 0 then [toString r.themeChanges.length ++ " theme changes"] else []) ++
    (if r.cssVariableChanges.length ≠ 0 then [toString r.cssVariableChanges.length ++ " CSS variable changes"] else []) ++
    (if r.sectionsAdded.length ≠ 0 ∨ r.sectionsRemoved.length ≠ 0 then
      ["sections: +" ++ toString r.sectionsAdded.length ++ " -" ++ toString r.sectionsRemoved.length] else []) ++
    (if r.layoutChanges.length ≠ 0 then [toString r.layoutChanges.length ++ " layout changes"] else [])
  let changes :=
    if changes.length = 0 then
      match r.imageDiff with
      | some d => if d.diffPercent > 0 then [toString d.diffPercent ++ "% pixel difference"] else []
      | none => []
    else changes
  if changes.length ≠ 0 then
    "Changes: " ++ String.intercalate ", " changes
  else
    "No visual changes detected"

/-- `compareSnapshots(before, after, beforeSnapshotPath?, afterSnapshotPath?)`
(lines 95–219).  `images` stands for the pair of decoded screenshots when
both snapshot paths were provided and resolved on disk (`none` = paths not
provided). -/
def compareSnapshots (pm : List Pixel → List Pixel → Nat)
    (before after : PageSnapshot) (images : Option (Image × Image))
    (outputDir : String) : CompareResult :=
  let imageDiff :=
    match images with
    | some (bi, ai) => some (compareImages pm bi ai outputDir)
    | none => none
  let beforeVars := before.theme.cssVariables
  let afterVars := after.theme.cssVariables
  let base : CompareResult :=
    { url := after.url
      summary := ""
      themeChanges := themeChangesOf before.theme after.theme
      cssVariableChanges := cssVariableChangesOf beforeVars afterVars
      sectionsAdded := setAdded (before.sections.map sectionKey) (after.sections.map sectionKey)
      sectionsRemoved := setAdded (after.sections.map sectionKey) (before.sections.map sectionKey)
      actionsAdded := setAdded (before.actions.map PageAction.name) (after.actions.map PageAction.name)
      actionsRemoved := setAdded (after.actions.map PageAction.name) (before.actions.map PageAction.name)
      layoutChanges := layoutChangesOf before.theme after.theme
      imageDiff := imageDiff }
  { base with summary := summaryOf base }

/-! ## Session manager (`getPage`, `session.ts` lines 47–184)

`getPage` is modelled as a state transition emitting the list of
navigations (`page.goto` calls) it performs.  The environment supplies the
outcomes of the external probes: which CDP ports connect and with which
page URLs, what `new URL(u).host` yields (`none` = the constructor throws),
and what `page.url()` reports. -/

/-- A navigation performed against a page. -/
inductive NavEvent where
  | goto (url : String)
deriving DecidableEq, Repr

/-- The fields of the module-level `SessionState` relevant to page
acquisition; handles are tracked by presence. -/
structure SessionState where
  hasBrowser : Bool
  hasContext : Bool
  hasPage : Bool
  currentUrl : Option String
  isRemote : Bool
deriving DecidableEq, Repr

/-- Result of a successful CDP connection: the URL of the chosen page and
the navigations performed while choosing it. -/
structure ConnectOutcome where
  pageUrl : String
  navs : List NavEvent
deriving DecidableEq, Repr

/-- Environment of one `getPage` call. -/
structure GetPageEnv where
  /-- `process.env.USE_CDP === '1'`. -/
  useCDP : Bool
  /-- Aligned with `CDP_PORTS = [9222, 9229]`: `none` if
  `connectOverCDP` rejects on that port, else the URLs of the open pages
  of all contexts. -/
  cdpPorts : List (Option (List String))
  /-- `new URL(u).host`; `none` models the constructor throwing. -/
  urlHost : String → Option String
  /-- `page.url()` after a successful `page.goto(u)`. -/
  gotoUrlResult : String → String
  /-- `state.page.url()` of the already-held page. -/
  pageUrl : String

/-- Page filter of `tryConnectCDP`: skip blank and internal pages. -/
def usablePageUrl (u : String) : Bool :=
  u ≠ "" && !u.startsWith "about:" && !u.startsWith "chrome://" &&
  !u.startsWith "edge://" && !u.startsWith "devtools://"

/-- Page selection of `tryConnectCDP` once a port yielded usable pages:
exact URL match, else same-host match, else navigate the first eligible
page to the target; without a target, the first usable page. -/
def pickPage (env : GetPageEnv) (targetUrl : Option String)
    (allPages : List String) : ConnectOutcome :=
  match truthyStr targetUrl with
  | some t =>
    match allPages.find? (fun p => p == t) with
    | some p => { pageUrl := p, navs := [] }
    | none =>
      let hostMatch : Option String :=
        match env.urlHost t with
        | some targetHost =>
          allPages.find? (fun p => ((env.urlHost p).map (fun h => h == targetHost)).getD false)
        | none => none
      match hostMatch with
      | some p => { pageUrl := p, navs := [] }
      | none => { pageUrl := env.gotoUrlResult t, navs := [NavEvent.goto t] }
  | none =>
    { pageUrl := allPages.headD "", navs := [] }

/-- The port loop of `tryConnectCDP`: first reachable port with a nonempty
list of usable pages wins. -/
def tryConnectCDPGo (env : GetPageEnv) (targetUrl : Option String) :
    List (Option (List String)) → Option ConnectOutcome
  | [] => none
  | none :: rest => tryConnectCDPGo env targetUrl rest
  | some pages :: rest =>
    let allPages := pages.filter usablePageUrl
    if allPages.isEmpty then
      tryConnectCDPGo env targetUrl rest
    else
      some (pickPage env targetUrl allPages)

/-- `tryConnectCDP(targetUrl?)` (lines 51–118). -/
def tryConnectCDP (env : GetPageEnv) (targetUrl : Option String) :
    Option ConnectOutcome :=
  tryConnectCDPGo env targetUrl env.cdpPorts

/-- Result of `getPage`: the updated session state and the navigations
performed. -/
structure GetPageOut where
  state : SessionState
  navs : List NavEvent
deriving DecidableEq, Repr

/-- `getPage(url?)` (lines 123–184): connect-or-launch, then the
navigation policy — navigate only when a (truthy) URL is supplied that
differs from the tracked URL and the session is not remote; a remote
session merely refreshes the tracked URL from the page. -/
def getPage (url : Option String) (env : GetPageEnv) (s : SessionState) :
    GetPageOut :=
  let connected : Option ConnectOutcome :=
    if !s.hasBrowser && env.useCDP then tryConnectCDP env url else none
  match connected with
  | some c =>
    -- early return: adopt the remote browser/page
    { state := { hasBrowser := true, hasContext := true, hasPage := true,
                 currentUrl := some c.pageUrl, isRemote := true }
      navs := c.navs }
  | none =>
    -- launch browser / create context / create page as needed
    let s1 : SessionState :=
      { hasBrowser := true, hasContext := true, hasPage := true,
        currentUrl := s.currentUrl,
        isRemote := if s.hasBrowser then s.isRemote else false }
    match truthyStr url with
    | some u =>
      if some u ≠ s1.currentUrl ∧ s1.isRemote = false then
        { state := { s1 with currentUrl := some u }, navs := [NavEvent.goto u] }
      else if s1.isRemote then
        { state := { s1 with currentUrl := some env.pageUrl }, navs := [] }
      else
        { state := s1, navs := [] }
    | none =>
      if s1.isRemote then
        { state := { s1 with currentUrl := some env.pageUrl }, navs := [] }
      else
        { state := s1, navs := [] }

/-! ## Tool-invocation boundary (`mcp-server.ts`, `detect.ts`)

The dispatcher is modelled as a function from the request to the produced
response plus the ordered trace of external contacts it makes: CDP
connection attempts and dev-server probes during URL auto-detection, and
session browser operations.  All response variants are rendered as text by
the real server; the inductive `HandlerOutcome` keeps them
distinguishable. -/

/-- A browser-session operation requested by the dispatcher. -/
inductive BrowserCall where
  | click (target url : String)
  | typeText (target text url : String)
  | selectOption (target value url : String)
  | hover (target url : String)
  | press (key url : String)
  | scroll (direction url : String)
  | analyze (url : String)
deriving DecidableEq, Repr

/-- One external contact made while serving a request. -/
inductive McpEvent where
  /-- `chromium.connectOverCDP` against a local debug port (detection). -/
  | cdpProbe (port : Nat)
  /-- Raw TCP probe of a dev-server port (detection). -/
  | portCheck (port : Nat)
  /-- `HEAD` request checking a candidate URL for HTML (detection). -/
  | httpHead (url : String)
  /-- A browser-session operation. -/
  | browserCall (c : BrowserCall)
deriving DecidableEq, Repr

/-- `detect.ts` environment: which CDP port yields a usable tab URL, which
dev-server ports accept a TCP connection, which URLs serve HTML. -/
structure DetectEnv where
  cdpTab : Nat → Option String
  portOpen : Nat → Bool
  validPage : String → Bool

/-- `CDP_PORTS` of `detect.ts`. -/
def cdpPortList : List Nat := [9222, 9229]

/-- `DEV_PORTS` of `detect.ts`. -/
def devPortList : List Nat := [5173, 3000, 3001, 8080, 8000, 4200, 4000, 5000, 5500]

/-- `DetectedPage` of `detect.ts` (`source` kept as its literal string). -/
structure DetectedPage where
  url : String
  source : String
  port : Option Nat
deriving DecidableEq, Repr

/-- The CDP phase of `detectActivePage`: try each debug port in order. -/
def detectCdp (env : DetectEnv) :
    List Nat → Option DetectedPage × List McpEvent
  | [] => (none, [])
  | p :: rest =>
    match env.cdpTab p with
    | some u => (some { url := u, source := "cdp", port := some p }, [McpEvent.cdpProbe p])
    | none =>
      let r := detectCdp env rest
      (r.1, McpEvent.cdpProbe p :: r.2)

/-- The dev-server phase of `detectActivePage`: for each open port in
order, `HEAD` the candidate URL; the first HTML responder wins. -/
def devScan (env : DetectEnv) : List Nat → Option DetectedPage × List McpEvent
  | [] => (none, [])
  | p :: rest =>
    if env.portOpen p then
      let url := "http://localhost:" ++ toString p ++ "/"
      if env.validPage url then
        (some { url := url, source := "devserver", port := some p }, [McpEvent.httpHead url])
      else
        let r := devScan env rest
        (r.1, McpEvent.httpHead url :: r.2)
    else
      devScan env rest

/-- `detectActivePage()` (`detect.ts` lines 97–128): CDP tab, else open
dev server with an HTML page, else the hardcoded default. -/
def detectActivePage (env : DetectEnv) : DetectedPage × List McpEvent :=
  match detectCdp env cdpPortList with
  | (some d, evs) => (d, evs)
  | (none, evs1) =>
    let portEvs := devPortList.map McpEvent.portCheck
    match devScan env devPortList with
    | (some d, evs2) => (d, evs1 ++ portEvs ++ evs2)
    | (none, evs2) =>
      ({ url := "http://localhost:5173/", source := "default", port := none },
       evs1 ++ portEvs ++ evs2)

/-- `resolveUrl(providedUrl?)` (`mcp-server.ts` lines 120–132): a (truthy)
provided URL is used as-is with no external contact; otherwise the page is
auto-detected. -/
def resolveUrl (env : DetectEnv) (providedUrl : Option String) :
    String × List McpEvent :=
  match truthyStr providedUrl with
  | some u => (u, [])
  | none =>
    let r := detectActivePage env
    (r.1.url, r.2)

/-- The request arguments of the `websight` tool. -/
structure Args where
  action : Option String
  url : Option String
  target : Option String
  text : Option String
  value : Option String
  direction : Option String
  key : Option String
deriving DecidableEq, Repr

/-- The response of the dispatcher, kept structured (the real server
renders every variant as a text content block). -/
inductive HandlerOutcome where
  /-- "Missing ..." parameter-validation response for the named action. -/
  | missingParam (action : String)
  | unknownAction (action : String)
  | unknownTool (name : String)
  /-- Analysis / baseline / diff report text. -/
  | reportText (text : String)
  /-- "No baseline found" response of the diff action. -/
  | noBaseline
  /-- A rendered `InteractionResult`. -/
  | interactionText (text : String)
  /-- The outer catch-all: a residual fault rendered as a generic error. -/
  | errorText (message : String)
deriving DecidableEq, Repr

/-- Environment of one dispatcher call: detection outcomes, the behaviour
of the session layer per browser call, and the analysis artefacts. -/
structure DispatchEnv where
  detect : DetectEnv
  /-- Outcome of the session-layer function serving a browser call;
  `Except.error` is an uncaught rejection reaching the dispatcher. -/
  interact : BrowserCall → Except String InteractionResult
  analyzeReport : String
  baselineExists : Bool
  diffReport : String

/-- Rendering of an `InteractionResult` as response text (success and
failure markers abbreviated to ASCII). -/
def renderInteraction (r : InteractionResult) : String :=
  if r.success then
    "[ok] " ++ r.message ++ " (" ++ toString r.durationMs ++ "ms)"
  else
    "[fail] " ++ r.message

/-- Perform one session browser call and render its result; an uncaught
rejection is absorbed by the dispatcher's outer `catch`. -/
def runCall (env : DispatchEnv) (evs : List McpEvent) (c : BrowserCall) :
    HandlerOutcome × List McpEvent :=
  match env.interact c with
  | .ok r => (.interactionText (renderInteraction r), evs ++ [McpEvent.browserCall c])
  | .error e => (.errorText e, evs ++ [McpEvent.browserCall c])

/-- The `CallToolRequestSchema` handler (`mcp-server.ts` lines 135–289):
resolve the URL (auto-detecting when absent), then dispatch on the action;
recognized interaction actions validate their required parameters (JS
falsiness: absent or empty) before calling the session layer. -/
def handleWebsight (name : String) (args : Args) (env : DispatchEnv) :
    HandlerOutcome × List McpEvent :=
  if name == "websight" then
    let ru := resolveUrl env.detect args.url
    let u := ru.1
    let evs := ru.2
    match args.action with
    | some "look" =>
      (.reportText env.analyzeReport, evs ++ [McpEvent.browserCall (.analyze u)])
    | some "baseline" =>
      (.reportText "Baseline saved", evs ++ [McpEvent.browserCall (.analyze u)])
    | some "diff" =>
      if !env.baselineExists then
        (.noBaseline, evs)
      else
        (.reportText env.diffReport, evs ++ [McpEvent.browserCall (.analyze u)])
    | some "click" =>
      match truthyStr args.target with
      | none => (.missingParam "click", evs)
      | some t => runCall env evs (.click t u)
    | some "type" =>
      match truthyStr args.target, truthyStr args.text with
      | some t, some x => runCall env evs (.typeText t x u)
      | _, _ => (.missingParam "type", evs)
    | some "select" =>
      match truthyStr args.target, truthyStr args.value with
      | some t, some v => runCall env evs (.selectOption t v u)
      | _, _ => (.missingParam "select", evs)
    | some "hover" =>
      match truthyStr args.target with
      | none => (.missingParam "hover", evs)
      | some t => runCall env evs (.hover t u)
    | some "scroll" =>
      let direction := jsOrStr args.direction "down"
      runCall env evs (.scroll direction u)
    | some "press" =>
      match truthyStr args.key with
      | none => (.missingParam "press", evs)
      | some k => runCall env evs (.press k u)
    | some other => (.unknownAction other, evs)
    | none => (.unknownAction "undefined", evs)
  else
    (.unknownTool name, [])

/-! ## Auxiliary lemmas -/

theorem listWithin_nil (l : List Char) : listWithin [] l = true := by
  cases l <;> simp [listWithin, List.isPrefixOf]

theorem isPrefixOf_append_self (l t : List Char) : l.isPrefixOf (l ++ t) = true := by
  induction l with
  | nil => simp [List.isPrefixOf]
  | cons a m ih => simp [List.isPrefixOf, ih]

theorem listWithin_of_isPrefixOf (n h : List Char) (hp : n.isPrefixOf h = true) :
    listWithin n h = true := by
  cases h with
  | nil =>
    cases n with
    | nil => rfl
    | cons a m => simp [List.isPrefixOf] at hp
  | cons c rest =>
    show (n.isPrefixOf (c :: rest) || listWithin n rest) = true
    rw [hp, Bool.true_or]

theorem listWithin_append_middle (pre n post : List Char) :
    listWithin n (pre ++ n ++ post) = true := by
  induction pre with
  | nil =>
    rw [List.nil_append]
    exact listWithin_of_isPrefixOf n (n ++ post) (isPrefixOf_append_self n post)
  | cons p pre ih =>
    show (n.isPrefixOf (p :: (pre ++ n ++ post)) || listWithin n (pre ++ n ++ post)) = true
    rw [ih, Bool.or_true]

/-- Substring containment from an explicit decomposition of the haystack's
character data. -/
theorem strIncludes_of_data (hay needle : String) (pre post : List Char)
    (h : hay.data = pre ++ needle.data ++ post) : strIncludes hay needle = true := by
  unfold strIncludes
  rw [h]
  exact listWithin_append_middle pre needle.data post

theorem listWithin_singleton (c : Char) (l : List Char) :
    listWithin [c] l = true ↔ c ∈ l := by
  induction l with
  | nil => simp [listWithin]
  | cons d rest ih =>
    show (List.isPrefixOf [c] (d :: rest) || listWithin [c] rest) = true ↔ c ∈ d :: rest
    have hpre : List.isPrefixOf [c] (d :: rest) = (c == d) := by
      show ((c == d) && List.isPrefixOf ([] : List Char) rest) = (c == d)
      cases rest <;> simp [List.isPrefixOf]
    rw [hpre]
    simp only [Bool.or_eq_true, beq_iff_eq, ih, List.mem_cons]

theorem mem_dedupKeysAux (seen l : List String) (x : String)
    (h : x ∈ dedupKeysAux seen l) : x ∈ l := by
  induction l generalizing seen with
  | nil => exact absurd h (by simp [dedupKeysAux])
  | cons k rest ih =>
    by_cases hk : seen.contains k = true
    · rw [dedupKeysAux, if_pos hk] at h
      exact List.mem_cons_of_mem _ (ih _ h)
    · rw [dedupKeysAux, if_neg hk] at h
      rcases List.mem_cons.mp h with h | h
      · exact h ▸ List.mem_cons_self _ _
      · exact List.mem_cons_of_mem _ (ih _ h)

theorem mem_dedupKeys (l : List String) (x : String) (h : x ∈ dedupKeys l) :
    x ∈ l :=
  mem_dedupKeysAux [] l x h

/-! ## C3: verbatim selector syntax -/

/-- **C3.**  For every target string that already has selector syntax
(starts with `[`, `#`, or `.`, or contains `=`), `findSelector` returns it
unchanged, regardless of the contents of the cached snapshot. -/
theorem findSelector_verbatim (target : String) (snapshot : Option PageSnapshot)
    (h : strStartsWithChar target '[' = true ∨ strStartsWithChar target '#' = true ∨
         strStartsWithChar target '.' = true ∨ strIncludes target "=" = true) :
    findSelector target snapshot = target := by
  unfold findSelector
  rcases h with h | h | h | h <;> simp [h]

/-- Sample interactive action for witnesses. -/
def actionA : PageAction :=
  { name := "Submit", locator := { type := LocType.testId, value := "[data-testid=\"submit-button\"]" } }

/-- Sample theme for witnesses. -/
def themeA : Theme :=
  { bodyBackground := "#ffffff", bodyTextColor := "#111111",
    bodyFontFamily := "Arial", bodyFontSize := "16px", lineHeight := "1.5",
    borderRadii := ["4px"], cssVariables := [("--primary", "#3b82f6")] }

/-- Sample snapshot for witnesses. -/
def snapA : PageSnapshot :=
  { url := "http://localhost:5173/", title := "Home", theme := themeA,
    sections := [{ name := "Hero", testId := some "hero" }],
    actions := [actionA], screenshotPath := some "page.png",
    textSample := "Welcome", timestamp := "2025-01-01T00:00:00Z" }

/-- Witness for C3 at the concrete target `#submit` and snapshot `snapA`. -/
theorem findSelector_verbatim_witness :
    (strStartsWithChar "#submit" '[' = true ∨ strStartsWithChar "#submit" '#' = true ∨
     strStartsWithChar "#submit" '.' = true ∨ strIncludes "#submit" "=" = true) ∧
    findSelector "#submit" (some snapA) = "#submit" :=
  ⟨by decide, findSelector_verbatim "#submit" (some snapA) (by decide)⟩

/-! ## C4: synthesized identifier-attribute query -/

/-- First character of an identifier-like target satisfies the character
class, so it cannot be a selector-syntax lead character. -/
theorem startsWithChar_false_of_identLike (target : String) (c : Char)
    (hident : identLike target = true) (hc : isWordOrHyphen c = false) :
    strStartsWithChar target c = false := by
  unfold identLike at hident
  unfold strStartsWithChar
  cases hd : target.data with
  | nil => rfl
  | cons d rest =>
    rw [hd] at hident
    simp only [Bool.and_eq_true, List.all_cons] at hident
    cases hdc : d == c
    · exact hdc
    · exact absurd (eq_of_beq hdc ▸ hident.2.1) (by simp [hc])

/-- An identifier-like target contains no character outside the class, in
particular no equals sign. -/
theorem includes_eq_false_of_identLike (target : String)
    (hident : identLike target = true) : strIncludes target "=" = false := by
  unfold identLike at hident
  simp only [Bool.and_eq_true, List.all_eq_true] at hident
  unfold strIncludes
  have hdata : ("=" : String).data = ['='] := rfl
  rw [hdata]
  cases hw : listWithin ['='] target.data
  · rfl
  · have hmem : '=' ∈ target.data := (listWithin_singleton '=' target.data).mp hw
    exact absurd (hident.2 '=' hmem) (by decide)

/-- **C4.**  For every identifier-like target (word characters and hyphens
only) that matches no entry of the cached snapshot's action list — neither
as case-insensitive substring of an accessible name nor of a testId-type
locator value — the resolver returns exactly the synthesized
`[data-testid="<target>"]` query; likewise when no snapshot is cached. -/
theorem findSelector_synthesizes_testid (target : String) (snap : PageSnapshot)
    (hident : identLike target = true)
    (hnomatch : ∀ a ∈ snap.actions,
      (strIncludes (strToLower a.name) (strToLower target) ||
       (a.locator.type == LocType.testId &&
         strIncludes (strToLower a.locator.value) (strToLower target))) = false) :
    findSelector target (some snap) = "[data-testid=\"" ++ target ++ "\"]" ∧
    findSelector target none = "[data-testid=\"" ++ target ++ "\"]" := by
  have hbr : strStartsWithChar target '[' = false :=
    startsWithChar_false_of_identLike target '[' hident (by decide)
  have hhash : strStartsWithChar target '#' = false :=
    startsWithChar_false_of_identLike target '#' hident (by decide)
  have hdot : strStartsWithChar target '.' = false :=
    startsWithChar_false_of_identLike target '.' hident (by decide)
  have heq : strIncludes target "=" = false :=
    includes_eq_false_of_identLike target hident
  have hfind : snap.actions.find? (fun a =>
      strIncludes (strToLower a.name) (strToLower target) ||
      (a.locator.type == LocType.testId &&
        strIncludes (strToLower a.locator.value) (strToLower target))) = none := by
    rw [List.find?_eq_none]
    intro a ha
    simp [hnomatch a ha]
  constructor
  · unfold findSelector
    simp [hbr, hhash, hdot, heq, hfind, hident]
  · unfold findSelector
    simp [hbr, hhash, hdot, heq, hident]

/-- Witness for C4 at the concrete target `field-name` and snapshot
`snapA` (whose only action is named `Submit`). -/
theorem findSelector_synthesizes_testid_witness :
    (identLike "field-name" = true ∧
     ∀ a ∈ snapA.actions,
       (strIncludes (strToLower a.name) (strToLower "field-name") ||
        (a.locator.type == LocType.testId &&
          strIncludes (strToLower a.locator.value) (strToLower "field-name"))) = false) ∧
    (findSelector "field-name" (some snapA) = "[data-testid=\"field-name\"]" ∧
     findSelector "field-name" none = "[data-testid=\"field-name\"]") :=
  ⟨⟨by decide, by decide⟩,
   findSelector_synthesizes_testid "field-name" snapA (by decide) (by decide)⟩

/-! ## C5 / C7: diff-engine lemmas -/

theorem themeChangesOf_self (t : Theme) : themeChangesOf t t = [] := by
  simp [themeChangesOf, themePropList]

theorem find?_key_some (vars : List (String × String)) (k : String)
    (h : k ∈ vars.map Prod.fst) :
    ∃ p, p ∈ vars ∧ vars.find? (fun q => q.1 == k) = some p ∧ p.1 = k := by
  obtain ⟨p0, hp0, hfst⟩ := List.mem_map.mp h
  have hsome : (vars.find? (fun q => q.1 == k)).isSome :=
    List.find?_isSome.mpr ⟨p0, hp0, by simp [hfst]⟩
  obtain ⟨p, hp⟩ := Option.isSome_iff_exists.mp hsome
  refine ⟨p, List.mem_of_find?_eq_some hp, hp, ?_⟩
  have hq := List.find?_some hp
  exact eq_of_beq hq

theorem cssVarSide_of_nonempty (vars : List (String × String)) (k s : String)
    (hmem : k ∈ vars.map Prod.fst) (hval : ∀ kv ∈ vars, kv.2 ≠ "") :
    ∃ p, p ∈ vars ∧ p.1 = k ∧ cssVarSide vars k s = p.2 := by
  obtain ⟨p, hpmem, hfind, hfst⟩ := find?_key_some vars k hmem
  refine ⟨p, hpmem, hfst, ?_⟩
  simp [cssVarSide, recLookup, hfind, jsOrStr, truthyStr, hval p hpmem]

theorem cssVariableChangesOf_self (vars : List (String × String))
    (h : ∀ kv ∈ vars, kv.2 ≠ "") : cssVariableChangesOf vars vars = [] := by
  unfold cssVariableChangesOf
  apply List.filterMap_eq_nil_iff.mpr
  intro k hk
  have hkl : k ∈ vars.map Prod.fst := by
    rcases List.mem_append.mp (mem_dedupKeys _ k hk) with hm | hm <;> exact hm
  obtain ⟨p, hpmem, hfind, hfst⟩ := find?_key_some vars k hkl
  have hb : cssVarSide vars k "(not set)" = p.2 := by
    simp [cssVarSide, recLookup, hfind, jsOrStr, truthyStr, h p hpmem]
  have ha : cssVarSide vars k "(removed)" = p.2 := by
    simp [cssVarSide, recLookup, hfind, jsOrStr, truthyStr, h p hpmem]
  simp [hb, ha]

theorem setAdded_self (l : List String) : setAdded l l = [] := by
  unfold setAdded
  apply List.filter_eq_nil_iff.mpr
  intro x hx
  have hmem := mem_dedupKeys l x hx
  simp [hmem]

theorem layoutChangesOf_self (t : Theme) : layoutChangesOf t t = [] := by
  simp [layoutChangesOf, setAdded_self]

/-- **C5 (amended).**  For every snapshot whose CSS-variable values are all
non-empty, diffing the snapshot against itself yields every structural
change list empty; and for any differing-pixel counter with zero
self-count, diffing any screenshot against itself yields a 0% pixel
difference that is not significant.  (The non-emptiness proviso is forced
by the JS `||` sentinel substitution, see the counterexample.) -/
theorem compareSnapshots_self_empty (pm : List Pixel → List Pixel → Nat)
    (S : PageSnapshot) (img : Image) (dir dir2 : String)
    (hpm : ∀ d, pm d d = 0)
    (hcss : ∀ kv ∈ S.theme.cssVariables, kv.2 ≠ "") :
    (compareSnapshots pm S S none dir).themeChanges = [] ∧
    (compareSnapshots pm S S none dir).cssVariableChanges = [] ∧
    (compareSnapshots pm S S none dir).sectionsAdded = [] ∧
    (compareSnapshots pm S S none dir).sectionsRemoved = [] ∧
    (compareSnapshots pm S S none dir).actionsAdded = [] ∧
    (compareSnapshots pm S S none dir).actionsRemoved = [] ∧
    (compareSnapshots pm S S none dir).layoutChanges = [] ∧
    (compareImages pm img img dir2).diffPercent = 0 ∧
    (compareImages pm img img dir2).hasSignificantChange = false := by
  have himg : ¬(img.width ≠ img.width ∨ img.height ≠ img.height) := by simp
  refine ⟨?_, ?_, ?_, ?_, ?_, ?_, ?_, ?_, ?_⟩
  · simp [compareSnapshots, themeChangesOf_self]
  · simp [compareSnapshots, cssVariableChangesOf_self S.theme.cssVariables hcss]
  · simp [compareSnapshots, setAdded_self]
  · simp [compareSnapshots, setAdded_self]
  · simp [compareSnapshots, setAdded_self]
  · simp [compareSnapshots, setAdded_self]
  · simp [compareSnapshots, layoutChangesOf_self]
  · rw [compareImages, if_neg himg]
    simp only [hpm]
    norm_num [round2, jsRound]
  · rw [compareImages, if_neg himg]
    simp only [hpm]
    norm_num

theorem pixelmatchModel_self (d : List Pixel) : pixelmatchModel d d = 0 := by
  unfold pixelmatchModel
  induction d with
  | nil => rfl
  | cons p rest ih =>
    rw [List.zip_cons_cons, List.countP_cons]
    simp only at ih
    rw [ih]
    simp [pixelDelta, channelDelta]

/-- A theme whose only CSS variable has the empty-string value (a legal
extraction result: `--x: ;` yields `""` after trimming). -/
def themeEmptyVar : Theme :=
  { themeA with cssVariables := [("--x", "")] }

/-- The snapshot exhibiting the self-diff anomaly. -/
def snapEmptyVar : PageSnapshot :=
  { snapA with theme := themeEmptyVar }

/-- **C5 (counterexample).**  Diffing `snapEmptyVar` against itself
reports a CSS-variable change (`(not set)` → `(removed)`), because the JS
`||` sentinel substitution also fires on present-but-empty values; so not
every change list is empty on a self-diff. -/
theorem compareSnapshots_self_empty_cex :
    (compareSnapshots pixelmatchModel snapEmptyVar snapEmptyVar none "out").cssVariableChanges =
      [{ property := "--x", before := "(not set)", after := "(removed)" }] ∧
    (compareSnapshots pixelmatchModel snapEmptyVar snapEmptyVar none "out").cssVariableChanges ≠
      ([] : List ThemeDiff) := by
  constructor
  · decide
  · decide

/-- Witness for the amended C5 at `snapA` (all CSS-variable values
non-empty) and a concrete 1×1 image. -/
theorem compareSnapshots_self_empty_witness :
    ((∀ d, pixelmatchModel d d = 0) ∧
     ∀ kv ∈ snapA.theme.cssVariables, kv.2 ≠ "") ∧
    ((compareSnapshots pixelmatchModel snapA snapA none "out").themeChanges = [] ∧
     (compareSnapshots pixelmatchModel snapA snapA none "out").cssVariableChanges = [] ∧
     (compareSnapshots pixelmatchModel snapA snapA none "out").sectionsAdded = [] ∧
     (compareSnapshots pixelmatchModel snapA snapA none "out").sectionsRemoved = [] ∧
     (compareSnapshots pixelmatchModel snapA snapA none "out").actionsAdded = [] ∧
     (compareSnapshots pixelmatchModel snapA snapA none "out").actionsRemoved = [] ∧
     (compareSnapshots pixelmatchModel snapA snapA none "out").layoutChanges = [] ∧
     (compareImages pixelmatchModel
        { width := 1, height := 1, data := [{ r := 0, g := 0, b := 0, a := 255 }] }
        { width := 1, height := 1, data := [{ r := 0, g := 0, b := 0, a := 255 }] }
        "out").diffPercent = 0 ∧
     (compareImages pixelmatchModel
        { width := 1, height := 1, data := [{ r := 0, g := 0, b := 0, a := 255 }] }
        { width := 1, height := 1, data := [{ r := 0, g := 0, b := 0, a := 255 }] }
        "out").hasSignificantChange = false) :=
  ⟨⟨pixelmatchModel_self, by decide⟩,
   compareSnapshots_self_empty pixelmatchModel snapA
     { width := 1, height := 1, data := [{ r := 0, g := 0, b := 0, a := 255 }] }
     "out" "out" pixelmatchModel_self (by decide)⟩

/-- **C7 (amended).**  The CSS-variable diff iterates the union of keys of
both snapshots and reports a change for a key exactly when the two
sentinel-substituted values differ, where the `(not set)` / `(removed)`
sentinel replaces a value that is absent *or* empty (JS `||`); the spec's
particular example holds as stated. -/
theorem cssVariableChanges_spec :
    (cssVariableChangesOf [("A", "1")] [("A", "1"), ("B", "2")] =
      [{ property := "B", before := "(not set)", after := "2" }]) ∧
    ∀ (bv av : List (String × String)) (d : ThemeDiff),
      d ∈ cssVariableChangesOf bv av ↔
        (d.property ∈ cssVarUnion bv av ∧
         d.before = cssVarSide bv d.property "(not set)" ∧
         d.after = cssVarSide av d.property "(removed)" ∧
         d.before ≠ d.after) := by
  constructor
  · decide
  · intro bv av d
    constructor
    · intro hd
      obtain ⟨k, hk, heq⟩ := List.mem_filterMap.mp hd
      by_cases hne : cssVarSide bv k "(not set)" ≠ cssVarSide av k "(removed)"
      · rw [if_pos hne] at heq
        obtain rfl := Option.some.inj heq
        exact ⟨hk, rfl, rfl, hne⟩
      · rw [if_neg hne] at heq
        exact absurd heq (by simp)
    · rintro ⟨hk, hb, ha, hne⟩
      apply List.mem_filterMap.mpr
      refine ⟨d.property, hk, ?_⟩
      rw [if_pos (by rw [← hb, ← ha]; exact hne)]
      rw [← hb, ← ha]

/-- **C7 (counterexample).**  With the same variable map
`[("--a", "")]` on both sides, the two values of key `--a` are equal, yet
the diff reports a change for it (with sentinels substituted for the
present-but-empty values) — change reporting is not "exactly when the two
values differ". -/
theorem cssVariableChanges_spec_cex :
    cssVariableChangesOf [("--a", "")] [("--a", "")] =
      [{ property := "--a", before := "(not set)", after := "(removed)" }] ∧
    cssVariableChangesOf [("--a", "")] [("--a", "")] ≠ ([] : List ThemeDiff) := by
  constructor
  · decide
  · decide

/-! ## C6 / C8: pixel diff -/

/-- **C6.**  For every pair of screenshots whose pixel dimensions differ,
the pixel diff skips per-pixel computation and returns
`diffPercent = 100`, no visualization image path and
`hasSignificantChange = true` (with the sentinel `diffPixels = -1`); the
function is total, so no exception can escape. -/
theorem compareImages_dimension_mismatch (pm : List Pixel → List Pixel → Nat)
    (img1 img2 : Image) (dir : String)
    (h : img1.width ≠ img2.width ∨ img1.height ≠ img2.height) :
    compareImages pm img1 img2 dir =
      { diffPercent := 100, diffPixels := -1,
        totalPixels := img1.width * img1.height,
        diffImagePath := none, hasSignificantChange := true } := by
  rw [compareImages, if_pos h]

/-- Witness for C6: a 1×1 against a 2×1 screenshot. -/
theorem compareImages_dimension_mismatch_witness :
    (((1 : Nat) ≠ 2 ∨ (1 : Nat) ≠ 1) : Prop) ∧
    compareImages pixelmatchModel
      { width := 1, height := 1, data := [{ r := 0, g := 0, b := 0, a := 255 }] }
      { width := 2, height := 1, data := [{ r := 0, g := 0, b := 0, a := 255 },
                                          { r := 9, g := 9, b := 9, a := 255 }] }
      "out" =
      { diffPercent := 100, diffPixels := -1, totalPixels := 1,
        diffImagePath := none, hasSignificantChange := true } :=
  ⟨by decide,
   compareImages_dimension_mismatch pixelmatchModel
     { width := 1, height := 1, data := [{ r := 0, g := 0, b := 0, a := 255 }] }
     { width := 2, height := 1, data := [{ r := 0, g := 0, b := 0, a := 255 },
                                         { r := 9, g := 9, b := 9, a := 255 }] }
     "out" (by decide)⟩

/-- **C8.**  For every pair of same-dimension screenshots (of at least one
pixel, where the JS quotient is defined), the reported percentage is the
differing-pixel count over total pixels times 100, rounded to two decimals
(JS `Math.round(x*100)/100`), and the result is significant exactly when
the unrounded percentage exceeds the fixed 0.5 threshold. -/
theorem compareImages_percentage (pm : List Pixel → List Pixel → Nat)
    (img1 img2 : Image) (dir : String)
    (hw : img1.width = img2.width) (hh : img1.height = img2.height)
    (_hpos : 0 < img1.width * img1.height) :
    (compareImages pm img1 img2 dir).diffPercent =
      round2 (((pm img1.data img2.data : ℚ) / ((img1.width * img1.height : Nat) : ℚ)) * 100) ∧
    ((compareImages pm img1 img2 dir).hasSignificantChange = true ↔
      ((pm img1.data img2.data : ℚ) / ((img1.width * img1.height : Nat) : ℚ)) * 100 > 1/2) := by
  have hcond : ¬(img1.width ≠ img2.width ∨ img1.height ≠ img2.height) := by
    simp [hw, hh]
  rw [compareImages, if_neg hcond]
  exact ⟨rfl, by simp⟩

/-- Witness for C8: two same-size 2×1 screenshots with one strongly
differing pixel. -/
theorem compareImages_percentage_witness :
    ((2 : Nat) = 2 ∧ (1 : Nat) = 1 ∧ 0 < 2 * 1) ∧
    ((compareImages pixelmatchModel
        { width := 2, height := 1, data := [{ r := 0, g := 0, b := 0, a := 255 },
                                            { r := 0, g := 0, b := 0, a := 255 }] }
        { width := 2, height := 1, data := [{ r := 0, g := 0, b := 0, a := 255 },
                                            { r := 255, g := 255, b := 255, a := 255 }] }
        "out").diffPercent =
      round2 (((pixelmatchModel
          [{ r := 0, g := 0, b := 0, a := 255 }, { r := 0, g := 0, b := 0, a := 255 }]
          [{ r := 0, g := 0, b := 0, a := 255 }, { r := 255, g := 255, b := 255, a := 255 }] : ℚ) /
        (((2 * 1 : Nat)) : ℚ)) * 100) ∧
    ((compareImages pixelmatchModel
        { width := 2, height := 1, data := [{ r := 0, g := 0, b := 0, a := 255 },
                                            { r := 0, g := 0, b := 0, a := 255 }] }
        { width := 2, height := 1, data := [{ r := 0, g := 0, b := 0, a := 255 },
                                            { r := 255, g := 255, b := 255, a := 255 }] }
        "out").hasSignificantChange = true ↔
      ((pixelmatchModel
          [{ r := 0, g := 0, b := 0, a := 255 }, { r := 0, g := 0, b := 0, a := 255 }]
          [{ r := 0, g := 0, b := 0, a := 255 }, { r := 255, g := 255, b := 255, a := 255 }] : ℚ) /
        (((2 * 1 : Nat)) : ℚ)) * 100 > 1/2)) :=
  ⟨⟨rfl, rfl, by decide⟩,
   compareImages_percentage pixelmatchModel
     { width := 2, height := 1, data := [{ r := 0, g := 0, b := 0, a := 255 },
                                         { r := 0, g := 0, b := 0, a := 255 }] }
     { width := 2, height := 1, data := [{ r := 0, g := 0, b := 0, a := 255 },
                                         { r := 255, g := 255, b := 255, a := 255 }] }
     "out" rfl rfl (by decide)⟩

/-! ## C10: scroll with no direction -/

/-- **C10.**  A `scroll` request without a direction parameter is not
rejected as a parameter error: the direction defaults to `down` and the
scroll browser call is performed. -/
theorem scroll_default_direction (env : DispatchEnv) (u : String) (hu : u ≠ "") :
    handleWebsight "websight"
      { action := some "scroll", url := some u, target := none, text := none,
        value := none, direction := none, key := none } env =
      runCall env [] (BrowserCall.scroll "down" u) ∧
    ∀ m, (handleWebsight "websight"
      { action := some "scroll", url := some u, target := none, text := none,
        value := none, direction := none, key := none } env).1 ≠
        HandlerOutcome.missingParam m := by
  have hres : resolveUrl env.detect (some u) = (u, []) := by
    simp [resolveUrl, truthyStr, hu]
  constructor
  · simp [handleWebsight, hres, jsOrStr, truthyStr]
  · intro m
    simp [handleWebsight, hres, jsOrStr, truthyStr, runCall]
    cases henv : env.interact (BrowserCall.scroll "down" u) <;> simp

/-- A detection environment with nothing running, for witnesses. -/
def detectEnvA : DetectEnv :=
  { cdpTab := fun _ => none, portOpen := fun _ => false, validPage := fun _ => false }

/-- A dispatcher environment for witnesses: every interaction succeeds. -/
def dispatchEnvA : DispatchEnv :=
  { detect := detectEnvA
    interact := fun _ => .ok { success := true, action := "scroll", target := "down",
                               message := "Scrolled down", durationMs := 1 }
    analyzeReport := "report", baselineExists := false, diffReport := "diff" }

/-- Witness for C10 at the concrete URL `http://localhost:5173/` and the
environment `dispatchEnvA`. -/
theorem scroll_default_direction_witness :
    ("http://localhost:5173/" ≠ "") ∧
    (handleWebsight "websight"
      { action := some "scroll", url := some "http://localhost:5173/", target := none,
        text := none, value := none, direction := none, key := none } dispatchEnvA =
      runCall dispatchEnvA [] (BrowserCall.scroll "down" "http://localhost:5173/") ∧
    ∀ m, (handleWebsight "websight"
      { action := some "scroll", url := some "http://localhost:5173/", target := none,
        text := none, value := none, direction := none, key := none } dispatchEnvA).1 ≠
        HandlerOutcome.missingParam m) :=
  ⟨by decide, scroll_default_direction dispatchEnvA "http://localhost:5173/" (by decide)⟩

/-! ## C2: parameter validation at the dispatch boundary -/

theorem detectCdp_no_browserCall (env : DetectEnv) (ports : List Nat) (c : BrowserCall) :
    McpEvent.browserCall c ∉ (detectCdp env ports).2 := by
  induction ports with
  | nil => simp [detectCdp]
  | cons p rest ih =>
    cases h : env.cdpTab p <;> simp [detectCdp, h, ih]

theorem devScan_no_browserCall (env : DetectEnv) (ports : List Nat) (c : BrowserCall) :
    McpEvent.browserCall c ∉ (devScan env ports).2 := by
  induction ports with
  | nil => simp [devScan]
  | cons p rest ih =>
    cases hop : env.portOpen p
    · simp [devScan, hop, ih]
    · cases hv : env.validPage ("http://localhost:" ++ toString p ++ "/") <;>
        simp [devScan, hop, hv, ih]

theorem detectActivePage_no_browserCall (env : DetectEnv) (c : BrowserCall) :
    McpEvent.browserCall c ∉ (detectActivePage env).2 := by
  unfold detectActivePage
  rcases hd : detectCdp env cdpPortList with ⟨d1, evs1⟩
  have h1 : McpEvent.browserCall c ∉ evs1 := by
    have := detectCdp_no_browserCall env cdpPortList c
    rw [hd] at this
    exact this
  cases d1 with
  | some d => simpa using h1
  | none =>
    rcases hs : devScan env devPortList with ⟨d2, evs2⟩
    have h2 : McpEvent.browserCall c ∉ evs2 := by
      have := devScan_no_browserCall env devPortList c
      rw [hs] at this
      exact this
    cases d2 <;> simp [h1, h2, List.mem_map]

theorem resolveUrl_no_browserCall (env : DetectEnv) (url : Option String)
    (c : BrowserCall) : McpEvent.browserCall c ∉ (resolveUrl env url).2 := by
  unfold resolveUrl
  cases h : truthyStr url with
  | some u => simp
  | none => simpa using detectActivePage_no_browserCall env c

/-- A recognized interaction action whose required parameter is missing
(JS falsiness: absent or empty). -/
def missingParamInput (args : Args) : Prop :=
  (args.action = some "click" ∧ truthyStr args.target = none) ∨
  (args.action = some "type" ∧ (truthyStr args.target = none ∨ truthyStr args.text = none)) ∨
  (args.action = some "select" ∧ (truthyStr args.target = none ∨ truthyStr args.value = none)) ∨
  (args.action = some "hover" ∧ truthyStr args.target = none) ∨
  (args.action = some "press" ∧ truthyStr args.key = none)

/-- **C2 (amended).**  For every recognized action missing a required
parameter, the dispatcher returns the explicit parameter-validation
response and never performs any session browser call; when a url argument
is supplied, no external contact at all precedes the response.  (When the
url is absent, URL auto-detection — which may connect to a running
browser's debug port — runs before the validation check; see the
counterexample.) -/
theorem param_validation_order (args : Args) (env : DispatchEnv)
    (h : missingParamInput args) :
    (∃ act, (handleWebsight "websight" args env).1 = HandlerOutcome.missingParam act) ∧
    (∀ c, McpEvent.browserCall c ∉ (handleWebsight "websight" args env).2) ∧
    ((truthyStr args.url).isSome → (handleWebsight "websight" args env).2 = []) := by
  have hmain : ∃ act, handleWebsight "websight" args env =
      (HandlerOutcome.missingParam act, (resolveUrl env.detect args.url).2) := by
    rcases h with ⟨ha, ht⟩ | ⟨ha, ht⟩ | ⟨ha, ht⟩ | ⟨ha, ht⟩ | ⟨ha, ht⟩
    · exact ⟨"click", by simp [handleWebsight, ha, ht]⟩
    · rcases ht with ht | ht
      · exact ⟨"type", by simp [handleWebsight, ha, ht]⟩
      · refine ⟨"type", ?_⟩
        cases htar : truthyStr args.target <;> simp [handleWebsight, ha, ht, htar]
    · rcases ht with ht | ht
      · exact ⟨"select", by simp [handleWebsight, ha, ht]⟩
      · refine ⟨"select", ?_⟩
        cases htar : truthyStr args.target <;> simp [handleWebsight, ha, ht, htar]
    · exact ⟨"hover", by simp [handleWebsight, ha, ht]⟩
    · exact ⟨"press", by simp [handleWebsight, ha, ht]⟩
  obtain ⟨act, hmain⟩ := hmain
  refine ⟨⟨act, by rw [hmain]⟩, ?_, ?_⟩
  · intro c
    rw [hmain]
    exact resolveUrl_no_browserCall env.detect args.url c
  · intro hu
    rw [hmain]
    obtain ⟨u, hu'⟩ := Option.isSome_iff_exists.mp hu
    simp [resolveUrl, hu']

/-- A click request without target and without url. -/
def argsMissingClick : Args :=
  { action := some "click", url := none, target := none, text := none,
    value := none, direction := none, key := none }

/-- An environment in which a debugging-enabled browser is listening on
port 9222. -/
def envCdpRunning : DispatchEnv :=
  { detect := { cdpTab := fun p => if p == 9222 then some "http://localhost:3000/" else none,
                portOpen := fun _ => false, validPage := fun _ => false }
    interact := fun _ => .error "unreachable"
    analyzeReport := "", baselineExists := false, diffReport := "" }

/-- **C2 (counterexample).**  A click request missing its target but with
no url argument: the dispatcher returns the parameter-validation response,
but only after URL auto-detection has already connected to the running
browser's CDP debug port — a browser call attempted before the validation
response, contradicting "before any browser call is attempted, regardless
of whether a url argument was supplied". -/
theorem param_validation_order_cex :
    handleWebsight "websight" argsMissingClick envCdpRunning =
      (HandlerOutcome.missingParam "click", [McpEvent.cdpProbe 9222]) ∧
    McpEvent.cdpProbe 9222 ∈ (handleWebsight "websight" argsMissingClick envCdpRunning).2 := by
  constructor
  · decide
  · decide

/-- Witness for the amended C2: click without target, with a url
supplied. -/
theorem param_validation_order_witness :
    missingParamInput
      { action := some "click", url := some "http://localhost:5173/", target := none,
        text := none, value := none, direction := none, key := none } ∧
    ((∃ act, (handleWebsight "websight"
        { action := some "click", url := some "http://localhost:5173/", target := none,
          text := none, value := none, direction := none, key := none } dispatchEnvA).1 =
        HandlerOutcome.missingParam act) ∧
     (∀ c, McpEvent.browserCall c ∉ (handleWebsight "websight"
        { action := some "click", url := some "http://localhost:5173/", target := none,
          text := none, value := none, direction := none, key := none } dispatchEnvA).2) ∧
     ((truthyStr (some "http://localhost:5173/")).isSome →
       (handleWebsight "websight"
        { action := some "click", url := some "http://localhost:5173/", target := none,
          text := none, value := none, direction := none, key := none } dispatchEnvA).2 = [])) :=
  ⟨by left; exact ⟨rfl, rfl⟩,
   param_validation_order _ dispatchEnvA (by left; exact ⟨rfl, rfl⟩)⟩

/-! ## C1: interaction failure reporting -/

theorem strIncludes_mid4 (a t b e : String) : strIncludes (a ++ t ++ b ++ e) t = true :=
  strIncludes_of_data _ _ a.data (b.data ++ e.data) (by simp [String.data_append])

theorem strIncludes_last4 (a t b e : String) : strIncludes (a ++ t ++ b ++ e) e = true :=
  strIncludes_of_data _ _ (a ++ t ++ b).data [] (by simp [String.data_append])

theorem strIncludes_mid5 (a t b c d : String) :
    strIncludes (a ++ t ++ b ++ c ++ d) t = true :=
  strIncludes_of_data _ _ a.data (b.data ++ (c.data ++ d.data)) (by simp [String.data_append])

theorem strIncludes_last2 (a e : String) : strIncludes (a ++ e) e = true :=
  strIncludes_of_data _ _ a.data [] (by simp [String.data_append])

/-- The interaction call returned a structured failure result (no uncaught
rejection) whose message mentions every listed string. -/
def failsMentioning (x : Except String InteractionResult) (needles : List String) : Prop :=
  ∃ r, x = Except.ok r ∧ r.success = false ∧ ∀ n ∈ needles, strIncludes r.message n = true

theorem failsMentioning_two {x : Except String InteractionResult}
    {r : InteractionResult} {t e : String} (hx : x = Except.ok r)
    (hs : r.success = false) (h1 : strIncludes r.message t = true)
    (h2 : strIncludes r.message e = true) : failsMentioning x [t, e] := by
  refine ⟨r, hx, hs, ?_⟩
  intro n hn
  rcases List.mem_cons.mp hn with rfl | hn
  · exact h1
  · rcases List.mem_cons.mp hn with rfl | hn
    · exact h2
    · exact absurd hn (List.not_mem_nil n)

theorem failsMentioning_one {x : Except String InteractionResult}
    {r : InteractionResult} {t : String} (hx : x = Except.ok r)
    (hs : r.success = false) (h1 : strIncludes r.message t = true) :
    failsMentioning x [t] := by
  refine ⟨r, hx, hs, ?_⟩
  intro n hn
  rcases List.mem_cons.mp hn with rfl | hn
  · exact h1
  · exact absurd hn (List.not_mem_nil n)

theorem click_fault (target : String) (snapshot : Option PageSnapshot) (env : OpEnv)
    (e : String) (hpage : env.getPageFault = none) (hop : env.opFault = some e) :
    click target snapshot env = Except.ok
      { success := false, action := "click", target := findSelector target snapshot,
        message := "Failed to click \"" ++ target ++ "\": " ++ e,
        durationMs := env.elapsed } := by
  unfold click
  rw [hpage, hop]

theorem type_fault (target text : String) (snapshot : Option PageSnapshot) (env : OpEnv)
    (e : String) (hpage : env.getPageFault = none) (hop : env.opFault = some e) :
    type target text snapshot env = Except.ok
      { success := false, action := "type", target := findSelector target snapshot,
        message := "Failed to type into \"" ++ target ++ "\": " ++ e,
        durationMs := env.elapsed } := by
  unfold type
  rw [hpage, hop]

theorem select_fault (target value : String) (snapshot : Option PageSnapshot) (env : OpEnv)
    (e : String) (hpage : env.getPageFault = none) (hop : env.opFault = some e) :
    select target value snapshot env = Except.ok
      { success := false, action := "select", target := findSelector target snapshot,
        message := "Failed to select in \"" ++ target ++ "\": " ++ e,
        durationMs := env.elapsed } := by
  unfold select
  rw [hpage, hop]

theorem hover_fault (target : String) (snapshot : Option PageSnapshot) (env : OpEnv)
    (e : String) (hpage : env.getPageFault = none) (hop : env.opFault = some e) :
    hover target snapshot env = Except.ok
      { success := false, action := "hover", target := findSelector target snapshot,
        message := "Failed to hover \"" ++ target ++ "\": " ++ e,
        durationMs := env.elapsed } := by
  unfold hover
  rw [hpage, hop]

theorem press_fault (key : String) (env : OpEnv) (e : String)
    (hpage : env.getPageFault = none) (hop : env.opFault = some e) :
    press key env = Except.ok
      { success := false, action := "press", target := key,
        message := "Failed to press \"" ++ key ++ "\": " ++ e,
        durationMs := env.elapsed } := by
  unfold press
  rw [hpage, hop]

theorem waitFor_fault (target : String) (timeoutMs : Nat) (snapshot : Option PageSnapshot)
    (env : OpEnv) (e : String) (hpage : env.getPageFault = none)
    (hop : env.opFault = some e) :
    waitFor target timeoutMs snapshot env = Except.ok
      { success := false, action := "waitFor", target := findSelector target snapshot,
        message := "Element \"" ++ target ++ "\" did not appear within " ++
          toString timeoutMs ++ "ms",
        durationMs := env.elapsed } := by
  unfold waitFor
  rw [hpage, hop]

theorem scroll_fault (direction : String) (env : OpEnv) (e : String)
    (hpage : env.getPageFault = none) (hop : env.opFault = some e)
    (hknown : (direction == "up" || direction == "down" ||
               direction == "top" || direction == "bottom") = true) :
    scroll direction env = Except.ok
      { success := false, action := "scroll", target := direction,
        message := "Failed to scroll " ++ direction ++ ": " ++ e,
        durationMs := env.elapsed } := by
  unfold scroll
  rw [hpage]
  simp only [hknown, if_true, hop]

theorem getValue_fault (target : String) (snapshot : Option PageSnapshot) (env : OpEnv)
    (e e2 : String) (hpage : env.getPageFault = none) (hop : env.opFault = some e)
    (htext : env.textContentFault = some e2) :
    getValue target snapshot env = Except.ok
      { success := false, action := "getValue", target := findSelector target snapshot,
        message := "Failed to get value from \"" ++ target ++ "\": " ++ e2,
        durationMs := env.elapsed } := by
  unfold getValue
  rw [hpage, hop, htext]

theorem isVisible_fault (target : String) (snapshot : Option PageSnapshot) (env : OpEnv)
    (e : String) (hpage : env.getPageFault = none) (hop : env.opFault = some e) :
    isVisible target snapshot env = Except.ok
      { success := false, action := "isVisible", target := findSelector target snapshot,
        message := "Failed to check visibility of \"" ++ target ++ "\": " ++ e,
        visible := some false, enabled := some false,
        durationMs := env.elapsed } := by
  unfold isVisible
  rw [hpage, hop]

theorem screenshot_fault (outputPath : String) (fast isRemote : Bool) (env : OpEnv)
    (e : String) (hpage : env.getPageFault = none) (hop : env.opFault = some e) :
    screenshot outputPath fast isRemote env = Except.ok
      { success := false, action := "screenshot", target := outputPath,
        message := "Failed to take screenshot: " ++ e,
        durationMs := env.elapsed } := by
  unfold screenshot
  rw [hpage, hop]

theorem getAttribute_fault (target attrName : String) (snapshot : Option PageSnapshot)
    (env : OpEnv) (e : String) (hpage : env.getPageFault = none)
    (hop : env.opFault = some e) :
    getAttribute target attrName snapshot env = Except.ok
      { success := false, action := "getAttribute", target := findSelector target snapshot,
        message := "Failed to get attribute from \"" ++ target ++ "\": " ++ e,
        durationMs := env.elapsed } := by
  unfold getAttribute
  rw [hpage, hop]

/-- **C1 (amended).**  For every interaction action, a timeout or
execution fault *during the bounded operation itself* (page acquisition
having succeeded) yields a returned result with `success = false` and a
human-readable explanation that includes the original target (all actions
except `screenshot`, whose failure message omits the output path) and the
underlying fault (all actions except `waitFor`, which reports the timeout
bound instead); no such fault escapes the function.  A fault during page
acquisition (`getPage`, e.g. a navigation timeout), however, is raised
outside every `try` block and propagates uncaught out of each interaction
function; it is absorbed only by the tool boundary's outer catch. -/
theorem interaction_fault_reporting
    (env env2 : OpEnv) (target text value key attrName outputPath direction : String)
    (snapshot : Option PageSnapshot) (timeoutMs : Nat) (fast isRemote : Bool)
    (e e2 ef : String)
    (hpage : env.getPageFault = none) (hop : env.opFault = some e)
    (htext : env.textContentFault = some e2)
    (hdir : direction = "up" ∨ direction = "down" ∨ direction = "top" ∨
            direction = "bottom")
    (hpage2 : env2.getPageFault = some ef) :
    (failsMentioning (click target snapshot env) [target, e] ∧
     failsMentioning (type target text snapshot env) [target, e] ∧
     failsMentioning (select target value snapshot env) [target, e] ∧
     failsMentioning (hover target snapshot env) [target, e] ∧
     failsMentioning (press key env) [key, e] ∧
     failsMentioning (waitFor target timeoutMs snapshot env) [target] ∧
     failsMentioning (scroll direction env) [direction, e] ∧
     failsMentioning (getValue target snapshot env) [target, e2] ∧
     failsMentioning (isVisible target snapshot env) [target, e] ∧
     failsMentioning (screenshot outputPath fast isRemote env) [e] ∧
     failsMentioning (getAttribute target attrName snapshot env) [target, e]) ∧
    (click target snapshot env2 = Except.error ef ∧
     type target text snapshot env2 = Except.error ef ∧
     select target value snapshot env2 = Except.error ef ∧
     hover target snapshot env2 = Except.error ef ∧
     press key env2 = Except.error ef ∧
     waitFor target timeoutMs snapshot env2 = Except.error ef ∧
     scroll direction env2 = Except.error ef ∧
     getValue target snapshot env2 = Except.error ef ∧
     isVisible target snapshot env2 = Except.error ef ∧
     screenshot outputPath fast isRemote env2 = Except.error ef ∧
     getAttribute target attrName snapshot env2 = Except.error ef) := by
  have hknown : (direction == "up" || direction == "down" ||
                 direction == "top" || direction == "bottom") = true := by
    rcases hdir with rfl | rfl | rfl | rfl <;> rfl
  constructor
  · refine ⟨?_, ?_, ?_, ?_, ?_, ?_, ?_, ?_, ?_, ?_, ?_⟩
    · exact failsMentioning_two (click_fault target snapshot env e hpage hop) rfl
        (strIncludes_mid4 _ _ _ _) (strIncludes_last4 _ _ _ _)
    · exact failsMentioning_two (type_fault target text snapshot env e hpage hop) rfl
        (strIncludes_mid4 _ _ _ _) (strIncludes_last4 _ _ _ _)
    · exact failsMentioning_two (select_fault target value snapshot env e hpage hop) rfl
        (strIncludes_mid4 _ _ _ _) (strIncludes_last4 _ _ _ _)
    · exact failsMentioning_two (hover_fault target snapshot env e hpage hop) rfl
        (strIncludes_mid4 _ _ _ _) (strIncludes_last4 _ _ _ _)
    · exact failsMentioning_two (press_fault key env e hpage hop) rfl
        (strIncludes_mid4 _ _ _ _) (strIncludes_last4 _ _ _ _)
    · exact failsMentioning_one (waitFor_fault target timeoutMs snapshot env e hpage hop)
        rfl (strIncludes_mid5 _ _ _ _ _)
    · exact failsMentioning_two (scroll_fault direction env e hpage hop hknown) rfl
        (strIncludes_mid4 _ _ _ _) (strIncludes_last4 _ _ _ _)
    · exact failsMentioning_two (getValue_fault target snapshot env e e2 hpage hop htext)
        rfl (strIncludes_mid4 _ _ _ _) (strIncludes_last4 _ _ _ _)
    · exact failsMentioning_two (isVisible_fault target snapshot env e hpage hop) rfl
        (strIncludes_mid4 _ _ _ _) (strIncludes_last4 _ _ _ _)
    · exact failsMentioning_one (screenshot_fault outputPath fast isRemote env e hpage hop)
        rfl (strIncludes_last2 _ _)
    · exact failsMentioning_two (getAttribute_fault target attrName snapshot env e hpage hop)
        rfl (strIncludes_mid4 _ _ _ _) (strIncludes_last4 _ _ _ _)
  · refine ⟨?_, ?_, ?_, ?_, ?_, ?_, ?_, ?_, ?_, ?_, ?_⟩ <;>
      first
        | (unfold click; rw [hpage2])
        | (unfold type; rw [hpage2])
        | (unfold select; rw [hpage2])
        | (unfold hover; rw [hpage2])
        | (unfold press; rw [hpage2])
        | (unfold waitFor; rw [hpage2])
        | (unfold scroll; rw [hpage2])
        | (unfold getValue; rw [hpage2])
        | (unfold isVisible; rw [hpage2])
        | (unfold screenshot; rw [hpage2])
        | (unfold getAttribute; rw [hpage2])

/-- Operation environment whose page acquisition rejects (navigation
timeout). -/
def envPageFaultA : OpEnv :=
  { getPageFault := some "page.goto: Timeout 30000ms exceeded", opFault := none,
    opValue := "", textContentFault := none, textContentValue := none,
    visibleValue := true, enabledFault := false, enabledValue := true,
    attrValue := none, elapsed := 0 }

/-- Operation environment whose page acquisition succeeds but whose bounded
operation (and `getValue` fallback) reject with message `boom`. -/
def envOpFaultA : OpEnv :=
  { getPageFault := none, opFault := some "boom", opValue := "",
    textContentFault := some "boom", textContentValue := none,
    visibleValue := true, enabledFault := false, enabledValue := true,
    attrValue := none, elapsed := 0 }

/-- **C1 (counterexample).**  Three concrete refutations of the claim as
stated: (1) when page acquisition (navigation) times out, `click` raises
the fault uncaught to its caller instead of returning a result; (2)
`waitFor`'s failure explanation omits the underlying fault (`boom` does
not occur in it); (3) `screenshot`'s failure explanation omits its target
(the output path). -/
theorem interaction_fault_reporting_cex :
    click "save" none envPageFaultA =
      Except.error "page.goto: Timeout 30000ms exceeded" ∧
    waitFor "save" 5000 none envOpFaultA = Except.ok
      { success := false, action := "waitFor", target := "[data-testid=\"save\"]",
        message := "Element \"save\" did not appear within 5000ms", durationMs := 0 } ∧
    strIncludes "Element \"save\" did not appear within 5000ms" "boom" = false ∧
    screenshot "shot.png" false false envOpFaultA = Except.ok
      { success := false, action := "screenshot", target := "shot.png",
        message := "Failed to take screenshot: boom", durationMs := 0 } ∧
    strIncludes "Failed to take screenshot: boom" "shot.png" = false := by
  refine ⟨rfl, ?_, by decide, ?_, by decide⟩
  · rw [waitFor_fault "save" 5000 none envOpFaultA "boom" rfl rfl]
    exact congrArg Except.ok (by decide)
  · rw [screenshot_fault "shot.png" false false envOpFaultA "boom" rfl rfl]
    exact congrArg Except.ok (by decide)

/-- Witness for the amended C1 at concrete inputs: the failing operation
environment `envOpFaultA` and the failing page acquisition
`envPageFaultA`. -/
theorem interaction_fault_reporting_witness :
    (envOpFaultA.getPageFault = none ∧ envOpFaultA.opFault = some "boom" ∧
     envOpFaultA.textContentFault = some "boom" ∧
     (("down" : String) = "up" ∨ ("down" : String) = "down" ∨
      ("down" : String) = "top" ∨ ("down" : String) = "bottom") ∧
     envPageFaultA.getPageFault = some "page.goto: Timeout 30000ms exceeded") ∧
    ((failsMentioning (click "save" none envOpFaultA) ["save", "boom"] ∧
      failsMentioning (type "save" "hi" none envOpFaultA) ["save", "boom"] ∧
      failsMentioning (select "save" "v" none envOpFaultA) ["save", "boom"] ∧
      failsMentioning (hover "save" none envOpFaultA) ["save", "boom"] ∧
      failsMentioning (press "Enter" envOpFaultA) ["Enter", "boom"] ∧
      failsMentioning (waitFor "save" 5000 none envOpFaultA) ["save"] ∧
      failsMentioning (scroll "down" envOpFaultA) ["down", "boom"] ∧
      failsMentioning (getValue "save" none envOpFaultA) ["save", "boom"] ∧
      failsMentioning (isVisible "save" none envOpFaultA) ["save", "boom"] ∧
      failsMentioning (screenshot "shot.png" false false envOpFaultA) ["boom"] ∧
      failsMentioning (getAttribute "save" "href" none envOpFaultA) ["save", "boom"]) ∧
     (click "save" none envPageFaultA =
        Except.error "page.goto: Timeout 30000ms exceeded" ∧
      type "save" "hi" none envPageFaultA =
        Except.error "page.goto: Timeout 30000ms exceeded" ∧
      select "save" "v" none envPageFaultA =
        Except.error "page.goto: Timeout 30000ms exceeded" ∧
      hover "save" none envPageFaultA =
        Except.error "page.goto: Timeout 30000ms exceeded" ∧
      press "Enter" envPageFaultA =
        Except.error "page.goto: Timeout 30000ms exceeded" ∧
      waitFor "save" 5000 none envPageFaultA =
        Except.error "page.goto: Timeout 30000ms exceeded" ∧
      scroll "down" envPageFaultA =
        Except.error "page.goto: Timeout 30000ms exceeded" ∧
      getValue "save" none envPageFaultA =
        Except.error "page.goto: Timeout 30000ms exceeded" ∧
      isVisible "save" none envPageFaultA =
        Except.error "page.goto: Timeout 30000ms exceeded" ∧
      screenshot "shot.png" false false envPageFaultA =
        Except.error "page.goto: Timeout 30000ms exceeded" ∧
      getAttribute "save" "href" none envPageFaultA =
        Except.error "page.goto: Timeout 30000ms exceeded")) :=
  ⟨⟨rfl, rfl, rfl, by decide, rfl⟩,
   interaction_fault_reporting envOpFaultA envPageFaultA "save" "hi" "v" "Enter" "href"
     "shot.png" "down" none 5000 false false "boom" "boom"
     "page.goto: Timeout 30000ms exceeded" rfl rfl rfl (by decide) rfl⟩

/-! ## C9: navigation policy of page acquisition -/

theorem pickPage_navs (env : GetPageEnv) (targetUrl : Option String)
    (pages : List String) (h : (pickPage env targetUrl pages).navs ≠ []) :
    ∃ u, truthyStr targetUrl = some u ∧
      (pickPage env targetUrl pages).navs = [NavEvent.goto u] := by
  rcases Option.eq_none_or_eq_some (truthyStr targetUrl) with ht | ⟨t, ht⟩
  · exact absurd (by simp [pickPage, ht]) h
  · refine ⟨t, ht, ?_⟩
    rcases hf : pages.find? (fun p => p == t) with _ | p
    · rcases hu : env.urlHost t with _ | th
      · simp [pickPage, ht, hf, hu]
      · rcases hf2 : pages.find?
            (fun p => ((env.urlHost p).map (fun q => q == th)).getD false) with _ | p
        · simp [pickPage, ht, hf, hu, hf2]
        · exact absurd (by simp [pickPage, ht, hf, hu, hf2]) h
    · exact absurd (by simp [pickPage, ht, hf]) h

theorem tryConnectCDPGo_navs (env : GetPageEnv) (targetUrl : Option String)
    (ports : List (Option (List String))) (c : ConnectOutcome)
    (hc : tryConnectCDPGo env targetUrl ports = some c) (hn : c.navs ≠ []) :
    ∃ u, truthyStr targetUrl = some u ∧ c.navs = [NavEvent.goto u] := by
  induction ports with
  | nil => simp [tryConnectCDPGo] at hc
  | cons p rest ih =>
    cases p with
    | none =>
      exact ih (by simpa [tryConnectCDPGo] using hc)
    | some pages =>
      by_cases he : (pages.filter usablePageUrl).isEmpty = true
      · rw [tryConnectCDPGo, if_pos he] at hc
        exact ih hc
      · rw [tryConnectCDPGo, if_neg he] at hc
        obtain rfl := Option.some.inj hc
        exact pickPage_navs env targetUrl (pages.filter usablePageUrl) hn

theorem tryConnectCDP_navs (env : GetPageEnv) (targetUrl : Option String)
    (c : ConnectOutcome) (hc : tryConnectCDP env targetUrl = some c)
    (hn : c.navs ≠ []) :
    ∃ u, truthyStr targetUrl = some u ∧ c.navs = [NavEvent.goto u] :=
  tryConnectCDPGo_navs env targetUrl env.cdpPorts c hc hn

/-- **C9.**  Acquiring a page navigates only when the caller supplies a
(truthy) URL that differs from the session's currently tracked URL while
the session is not remote-attached; in every other case no navigation is
performed, and for a remote session the tracked URL is merely updated to
the page's current URL.  The hypothesis is the state invariant maintained
by the session module: with no browser handle there is no tracked URL and
no remote flag. -/
theorem getPage_navigation_policy (url : Option String) (env : GetPageEnv)
    (s : SessionState)
    (hinv : s.hasBrowser = false → s.currentUrl = none ∧ s.isRemote = false) :
    ((getPage url env s).navs ≠ [] →
      ∃ u, truthyStr url = some u ∧ some u ≠ s.currentUrl ∧ s.isRemote = false) ∧
    (s.isRemote = true →
      (getPage url env s).navs = [] ∧
      (getPage url env s).state.currentUrl = some env.pageUrl) := by
  cases hb : s.hasBrowser with
  | false =>
    -- fresh session: no browser handle yet
    obtain ⟨hcu, hir⟩ := hinv hb
    have hpart2 : s.isRemote = true →
        (getPage url env s).navs = [] ∧
        (getPage url env s).state.currentUrl = some env.pageUrl :=
      fun hr => absurd hr (by simp [hir])
    cases hcdp : env.useCDP with
    | false =>
      refine ⟨?_, hpart2⟩
      intro hn
      rcases Option.eq_none_or_eq_some (truthyStr url) with hu | ⟨u, hu⟩
      · exact absurd (by simp [getPage, hb, hcdp, hu, hir]) hn
      · exact ⟨u, hu, by simp [hcu], hir⟩
    | true =>
      rcases hconn : tryConnectCDP env url with _ | c
      · refine ⟨?_, hpart2⟩
        intro hn
        rcases Option.eq_none_or_eq_some (truthyStr url) with hu | ⟨u, hu⟩
        · exact absurd (by simp [getPage, hb, hcdp, hconn, hu, hir]) hn
        · exact ⟨u, hu, by simp [hcu], hir⟩
      · refine ⟨?_, hpart2⟩
        intro hn
        have hnavs : (getPage url env s).navs = c.navs := by
          simp [getPage, hb, hcdp, hconn]
        rw [hnavs] at hn
        obtain ⟨u, hu, _⟩ := tryConnectCDP_navs env url c hconn hn
        exact ⟨u, hu, by simp [hcu], hir⟩
  | true =>
    -- browser already held: the CDP connect phase is skipped
    cases hr : s.isRemote with
    | false =>
      refine ⟨?_, fun h2 => absurd h2 (by simp [hr])⟩
      intro hn
      rcases Option.eq_none_or_eq_some (truthyStr url) with hu | ⟨u, hu⟩
      · exact absurd (by simp [getPage, hb, hr, hu]) hn
      · by_cases hne : some u = s.currentUrl
        · exact absurd (by simp [getPage, hb, hr, hu, hne.symm]) hn
        · exact ⟨u, hu, hne, rfl⟩
    | true =>
      constructor
      · intro hn
        rcases Option.eq_none_or_eq_some (truthyStr url) with hu | ⟨u, hu⟩
        · exact absurd (by simp [getPage, hb, hr, hu]) hn
        · exact absurd (by simp [getPage, hb, hr, hu]) hn
      · intro _
        constructor
        · rcases Option.eq_none_or_eq_some (truthyStr url) with hu | ⟨u, hu⟩ <;>
            simp [getPage, hb, hr, hu]
        · rcases Option.eq_none_or_eq_some (truthyStr url) with hu | ⟨u, hu⟩ <;>
            simp [getPage, hb, hr, hu]

/-- A remote-attached session state for the C9 witness. -/
def remoteStateA : SessionState :=
  { hasBrowser := true, hasContext := true, hasPage := true,
    currentUrl := some "http://localhost:3000/", isRemote := true }

/-- A page-acquisition environment for the C9 witness. -/
def getPageEnvA : GetPageEnv :=
  { useCDP := true, cdpPorts := [none, none], urlHost := fun _ => none,
    gotoUrlResult := fun u => u, pageUrl := "http://localhost:3000/about" }

/-- Witness for C9 at the concrete remote session `remoteStateA`: no
navigation occurs and the tracked URL is refreshed from the page. -/
theorem getPage_navigation_policy_witness :
    (remoteStateA.hasBrowser = false →
      remoteStateA.currentUrl = none ∧ remoteStateA.isRemote = false) ∧
    (((getPage (some "http://example.com/") getPageEnvA remoteStateA).navs ≠ [] →
      ∃ u, truthyStr (some "http://example.com/") = some u ∧
        some u ≠ remoteStateA.currentUrl ∧ remoteStateA.isRemote = false) ∧
     (remoteStateA.isRemote = true →
      (getPage (some "http://example.com/") getPageEnvA remoteStateA).navs = [] ∧
      (getPage (some "http://example.com/") getPageEnvA remoteStateA).state.currentUrl =
        some getPageEnvA.pageUrl)) :=
  ⟨by decide,
   getPage_navigation_policy (some "http://example.com/") getPageEnvA remoteStateA
     (by decide)⟩

end WebSight
